import Mathlib

/-!
Verification development for the github-code web component
(lazy multi-file render orchestrator, tab state, per-file fetch cache,
shared highlight.js loader, theme resolution).

Each definition is a shallow embedding of the corresponding source
function; browser/DOM collaborators (fetch transport, script loading,
innerHTML, matchMedia) are made explicit as an `Env` oracle and as
event traces, since the source observes them only through those
well-defined points.
-/

namespace GithubCode

/-! ### String helpers

The source manipulates JavaScript strings with `split`, `trim` and
regular expressions.  We model those operations by structural recursion
on the character list of a Lean `String`, which keeps every definition
kernel-executable.
-/

/-- Splits a character list at every occurrence of `c` (JavaScript
`String.prototype.split` semantics: `"a,,b"` gives three pieces, the empty
string gives one empty piece). `acc` holds the current piece reversed. -/
def splitOnCharAux (c : Char) : List Char → List Char → List (List Char)
  | [], acc => [acc.reverse]
  | x :: xs, acc =>
    if x = c then acc.reverse :: splitOnCharAux c xs []
    else splitOnCharAux c xs (x :: acc)

/-- JavaScript `split(c)` on a character list. -/
def splitOnChar (c : Char) (l : List Char) : List (List Char) :=
  splitOnCharAux c l []

/-- The whitespace characters removed by JavaScript `String.prototype.trim`
(space, tab, line feed, carriage return, vertical tab, form feed,
no-break space, BOM; the less common Unicode space characters are not
needed by any claim). -/
def isJsWhitespace (c : Char) : Bool :=
  c = ' ' || c = '\t' || c = '\n' || c = '\r' ||
  c = Char.ofNat 0x0B || c = Char.ofNat 0x0C ||
  c = Char.ofNat 0xA0 || c = Char.ofNat 0xFEFF

/-- JavaScript `trim` on a character list: drop leading and trailing
whitespace. -/
def trimChars (l : List Char) : List Char :=
  ((l.dropWhile isJsWhitespace).reverse.dropWhile isJsWhitespace).reverse

/-- Joins string pieces with `/` between them (inverse of splitting on
`/`; used to reconstruct the text standing after a URL segment). -/
def joinSlash : List String → String
  | [] => ""
  | [s] => s
  | s :: rest => s ++ "/" ++ joinSlash rest

/-- The segments of a URL around `/` (as JavaScript `url.split('/')`). -/
def urlSegs (url : String) : List String :=
  (splitOnChar '/' url.data).map (fun l => ⟨l⟩)

/-- JavaScript regexp `.` (without the dotAll flag) matches any character
except a line terminator. -/
def isLineTerminator (c : Char) : Bool :=
  c = '\n' || c = '\r' || c = Char.ofNat 0x2028 || c = Char.ofNat 0x2029

/-! ### file-parser.ts -/

/-- `parseFileAttribute` from `parsers/file-parser.ts`: split the `file`
attribute on commas, trim each piece, drop empties. -/
def parseFileAttribute (fileAttr : String) : List String :=
  (((splitOnChar ',' fileAttr.data).map (fun l => (⟨trimChars l⟩ : String))).filter
    (fun url => url.length > 0))

/-! ### url-parser.ts -/

/-- `isValidGitHubUrl` from `parsers/url-parser.ts`: the test of the regexp
`^https:\/\/github\.com\/[^\/]+\/[^\/]+\/blob\/.+` — literal prefix, a
nonempty slash-free owner and repo segment, the literal segment `blob`,
a slash, and at least one further character matched by `.`. -/
def isValidGitHubUrl (url : String) : Bool :=
  match urlSegs url with
  | "https:" :: "" :: "github.com" :: owner :: repo :: "blob" :: tail =>
    decide (owner ≠ "") && decide (repo ≠ "") &&
    (match (joinSlash tail).data with
     | [] => false
     | c :: _ => !isLineTerminator c)
  | _ => false

/-- Result of `parseGitHubUrl` (interface `GitHubUrlParts` in types.ts). -/
structure GitHubUrlParts where
  rawUrl : String
  filename : String
deriving DecidableEq, Repr

/-- `parseGitHubUrl` from `parsers/url-parser.ts`: the anchored regexp
`^https:\/\/github\.com\/([^\/]+)\/([^\/]+)\/blob\/([^\/]+)\/(.+)$`.
On a match it produces the raw.githubusercontent.com URL and the
filename (last path segment, with the JavaScript `|| 'unknown'` fallback
when the path ends in a slash); otherwise it throws
`Failed to parse GitHub URL`, modelled as `Except.error`. -/
def parseGitHubUrl (url : String) : Except String GitHubUrlParts :=
  match urlSegs url with
  | "https:" :: "" :: "github.com" :: owner :: repo :: "blob" :: commit :: rest =>
    let path := joinSlash rest
    if decide (owner ≠ "") && decide (repo ≠ "") && decide (commit ≠ "") &&
       decide (path ≠ "") && path.data.all (fun c => !isLineTerminator c) then
      let last := ((splitOnChar '/' path.data).map (fun l => (⟨l⟩ : String))).getLastD ""
      Except.ok
        { rawUrl := "https://raw.githubusercontent.com/" ++ owner ++ "/" ++ repo ++
            "/" ++ commit ++ "/" ++ path
          filename := if last = "" then "unknown" else last }
    else Except.error "Failed to parse GitHub URL"
  | _ => Except.error "Failed to parse GitHub URL"

/-- `extractFilenameFromUrl` from `parsers/url-parser.ts`: the regexp
`\/([^\/]+)$` — the text after the last slash when it is nonempty,
`unknown` otherwise (also when the URL has no slash at all). -/
def extractFilenameFromUrl (url : String) : String :=
  let segs := urlSegs url
  if 2 ≤ segs.length then
    match segs.getLast? with
    | some s => if s = "" then "unknown" else s
    | none => "unknown"
  else "unknown"

/-! ### html-generators.ts -/

/-- One character of `escapeHtml`'s output.  The source implements
`escapeHtml` by writing the text into a DOM text node and serializing it
back (`div.textContent = text; div.innerHTML`); the HTML serialization of
a text node escapes `&`, `<`, `>` and the no-break space, and leaves every
other character unchanged, which is what we model. -/
def escapeChar (c : Char) : List Char :=
  if c = '&' then ['&', 'a', 'm', 'p', ';']
  else if c = '<' then ['&', 'l', 't', ';']
  else if c = '>' then ['&', 'g', 't', ';']
  else if c = Char.ofNat 0xA0 then ['&', 'n', 'b', 's', 'p', ';']
  else [c]

/-- `escapeHtml` from `rendering/html-generators.ts` (DOM text-node
serialization, see `escapeChar`). -/
def escapeHtml (text : String) : String :=
  ⟨text.data.flatMap escapeChar⟩

/-- `getErrorContentHtml` from `rendering/html-generators.ts`. -/
def getErrorContentHtml (errorMessage : String) (showRetry : Bool) : String :=
  "<div class=\"error\">" ++ escapeHtml errorMessage ++
    (if showRetry then "<button class=\"retry-button\">Retry</button>" else "") ++
    "</div>"

/-- The markup written by `GitHubCode.#showError` into the shadow root
(github-code.ts line 412): the escaped message inside an error div,
with the template's surrounding whitespace. -/
def showErrorHtml (message : String) : String :=
  "\n    <div class=\"error\">" ++ escapeHtml message ++ "</div>\n    "

/-! ### types.ts / code-fetcher.ts -/

/-- `FileMetadata` from types.ts: one record per configured file. -/
structure FileMetadata where
  filename : String
  rawUrl : String
  url : String
  code : Option String
  error : Option String
  loaded : Bool
deriving DecidableEq, Repr

/-- `ensureFileLoaded` from `fetching/code-fetcher.ts`.  The transport
(`fetchCode`, i.e. `fetch` plus HTTP-status and CORS message mapping) is
abstracted as the oracle `fetchR : rawUrl → Except message content`.
Returns the updated record and whether a transport call was made. -/
def ensureFileLoaded (file : FileMetadata) (isRetry : Bool)
    (fetchR : String → Except String String) : FileMetadata × Bool :=
  if file.loaded && !isRetry then (file, false)
  else
    let file0 := if isRetry then { file with loaded := false, error := none } else file
    match fetchR file0.rawUrl with
    | Except.ok code => ({ file0 with code := some code, error := none, loaded := true }, true)
    | Except.error e => ({ file0 with code := none, error := some e, loaded := true }, true)

/-! ### tab-state.ts -/

/-- `TabState` from `tabs/tab-state.ts`.  The JavaScript `Set` of rendered
tab indices is modelled as a duplicate-free insertion-ordered list. -/
structure TabState where
  activeTabIndex : Nat
  renderedTabs : List Nat
  tabsFullyRendered : Bool
deriving DecidableEq, Repr

/-- `TabState.getActiveTabIndex`. -/
def TabState.getActiveTabIndex (t : TabState) : Nat := t.activeTabIndex

/-- `TabState.setActiveTabIndex`. -/
def TabState.setActiveTabIndex (t : TabState) (index : Nat) : TabState :=
  { t with activeTabIndex := index }

/-- `TabState.areTabsFullyRendered`. -/
def TabState.areTabsFullyRendered (t : TabState) : Bool := t.tabsFullyRendered

/-- `TabState.setTabsFullyRendered`. -/
def TabState.setTabsFullyRendered (t : TabState) (value : Bool) : TabState :=
  { t with tabsFullyRendered := value }

/-- `TabState.isTabRendered`. -/
def TabState.isTabRendered (t : TabState) (index : Nat) : Bool :=
  t.renderedTabs.contains index

/-- `TabState.markTabAsRendered` (`Set.add`: no duplicate entries). -/
def TabState.markTabAsRendered (t : TabState) (index : Nat) : TabState :=
  { t with renderedTabs :=
      if t.renderedTabs.contains index then t.renderedTabs else t.renderedTabs ++ [index] }

/-- `TabState.reset`: clears the rendered set and the scaffold flag; the
source deliberately leaves `activeTabIndex` to the caller. -/
def TabState.reset (t : TabState) : TabState :=
  { t with renderedTabs := [], tabsFullyRendered := false }

/-! ### tab-controller.ts -/

/-- `handleTabKeyNavigation` from `tabs/tab-controller.ts`: keyboard
navigation for the tab list.  Indices are JavaScript numbers, modelled as
integers. -/
def handleTabKeyNavigation (key : String) (currentIndex maxIndex : Int) : Option Int :=
  if key = "ArrowLeft" then
    some (if currentIndex > 0 then currentIndex - 1 else maxIndex)
  else if key = "ArrowRight" then
    some (if currentIndex < maxIndex then currentIndex + 1 else 0)
  else if key = "Home" then some 0
  else if key = "End" then some maxIndex
  else none

/-! ### theme-resolver.ts -/

/-- The `theme` attribute values (`Theme` in types.ts). -/
inductive Theme
  | light
  | dark
  | auto
deriving DecidableEq, Repr

/-- A resolved theme (`ResolvedTheme` in types.ts). -/
inductive ResolvedTheme
  | light
  | dark
deriving DecidableEq, Repr

/-- `getThemeAttribute` from `theme/theme-resolver.ts`, applied to the raw
attribute value: `dark` and `light` pass through, anything else
(including a missing attribute) is `auto`. -/
def themeOfAttr : Option String → Theme
  | some a => if a = "dark" then Theme.dark else if a = "light" then Theme.light else Theme.auto
  | none => Theme.auto

/-- `resolveTheme` from `theme/theme-resolver.ts`; the
`prefers-color-scheme: dark` media query is the boolean argument. -/
def resolveTheme : Theme → Bool → ResolvedTheme
  | Theme.dark, _ => ResolvedTheme.dark
  | Theme.light, _ => ResolvedTheme.light
  | Theme.auto, prefersDark => if prefersDark then ResolvedTheme.dark else ResolvedTheme.light

/-! ### highlightjs-loader.ts

The loader's module-level mutable state, and `loadHighlightJS` as a state
transition.  JavaScript is single threaded: each call's synchronous body
runs atomically, so N "concurrent" calls issued while no load has
completed are a sequence of state transitions with no completion event
between them.  Promise identity is modelled by a counter. -/

/-- `HighlightJSSource` from types.ts. -/
inductive HSource
  | userProvided
  | cdnDefault
  | globalAmbient
deriving DecidableEq, Repr

/-- The module-level state of `fetching/highlightjs-loader.ts`:
`window.hljs` presence, `highlightJSLoadingPromise`,
`loadedHighlightJSUrl`, `highlightJSSource`, plus a counter minting
promise identities. -/
structure LoaderState where
  hljsPresent : Bool
  loadingPromise : Option Nat
  loadedHighlightJSUrl : Option String
  highlightJSSource : HSource
  nextPromiseId : Nat
deriving DecidableEq, Repr

/-- The default CDN URL in `loadHighlightJS`. -/
def DEFAULT_URL : String :=
  "https://cdnjs.cloudflare.com/ajax/libs/highlight.js/11.11.1/highlight.min.js"

/-- What one `loadHighlightJS` call does before suspending: resolve
immediately (capability ambient), attach to the in-flight promise, or
start a new load attempt (create the script element and the promise). -/
inductive LoadCallResult
  | immediate
  | attached (pid : Nat)
  | started (pid : Nat) (url : String)
deriving DecidableEq, Repr

/-- The synchronous body of `loadHighlightJS` from
`fetching/highlightjs-loader.ts` (lines 47-126): the three branches of
the singleton pattern.  The warning printed on a conflicting concurrent
custom URL changes no state and is not modelled. -/
def loadHighlightJS (st : LoaderState) (customUrl : Option String) :
    LoaderState × LoadCallResult :=
  if st.hljsPresent then
    (if st.loadedHighlightJSUrl = none then
       { st with highlightJSSource := HSource.globalAmbient,
                 loadedHighlightJSUrl := some "auto" }
     else st,
     LoadCallResult.immediate)
  else
    match st.loadingPromise with
    | some p => (st, LoadCallResult.attached p)
    | none =>
      let urlToLoad := customUrl.getD DEFAULT_URL
      ({ st with
          loadedHighlightJSUrl := some urlToLoad,
          highlightJSSource :=
            if customUrl.isSome then HSource.userProvided else HSource.cdnDefault,
          loadingPromise := some st.nextPromiseId,
          nextPromiseId := st.nextPromiseId + 1 },
       LoadCallResult.started st.nextPromiseId urlToLoad)

/-- A sequence of `loadHighlightJS` calls with no completion event between
them (single-threaded interleaving of N concurrent callers). -/
def runCalls (st : LoaderState) : List (Option String) → LoaderState × List LoadCallResult
  | [] => (st, [])
  | c :: cs =>
    let p := loadHighlightJS st c
    let q := runCalls p.1 cs
    (q.1, p.2 :: q.2)

/-- The promise a caller ends up awaiting (none when it resolved
immediately). -/
def pidOf : LoadCallResult → Option Nat
  | LoadCallResult.immediate => none
  | LoadCallResult.attached p => some p
  | LoadCallResult.started p _ => some p

/-- Whether a call started a fresh load attempt. -/
def isStart : LoadCallResult → Bool
  | LoadCallResult.started _ _ => true
  | _ => false

/-! ### github-code.ts — the render orchestrator

The `GitHubCode` component's private fields plus the shadow-DOM facts the
control flow reads back (which `section[role="tabpanel"]` elements exist)
form `WidgetState`.  The host collaborators — the transport, the
highlight.js script load outcome, and the `prefers-color-scheme` signal —
form `Env`.  Every externally observable action of a render pass (view
emissions, transport calls, capability load, scaffold construction) is
recorded as an `Event`; claims are stated over the resulting traces.

The source's `async` methods suspend only at `await` points; for a single
widget with no interleaved operation a whole pass runs as written, so it
is modelled as a straight-line function.  The one interleaving the claims
need — `attributeChangedCallback('file')` clamping the active index after
`#render`'s synchronous prefix returned at its first `await` — is modelled
by splitting `#render` into `renderSync` (everything before
`await loadHighlightJS()`) and `renderRest` (the continuation). -/

/-- Externally observable actions of the orchestrator. -/
inductive Event
  | emitError (msg : String)
  | emitSingleSkeleton (filename : String)
  | emitTabbedSkeleton (activeIndex : Nat) (fileCount : Nat)
  | loadCapability
  | fetchFile (rawUrl : String)
  | buildScaffold (activeIndex : Nat)
  | emitContent (index : Nat)
  | emitFileError (index : Nat) (msg : String) (retryable : Bool)
deriving DecidableEq, Repr

/-- The component's private fields (`#files`, `#tabState`,
`#resolvedTheme`), its two observed attributes, and the tab panels
currently present in the shadow DOM (by `data-index`). -/
structure WidgetState where
  fileAttr : Option String
  themeAttr : Option String
  files : List FileMetadata
  tabState : TabState
  resolvedTheme : Option ResolvedTheme
  domPanels : List Nat
deriving DecidableEq, Repr

/-- The host collaborators of one render pass: the system dark-mode
preference, the outcome of awaiting `loadHighlightJS`, and the transport
(`fetchCode`) keyed by raw URL. -/
structure Env where
  prefersDark : Bool
  hljsLoad : Except String Unit
  fetchResult : String → Except String String

/-- `GitHubCode.#getResolvedTheme`: the cached resolved theme, or
`resolveTheme(getThemeAttribute(this))` when the cache is empty. -/
def currentResolvedTheme (st : WidgetState) (env : Env) : ResolvedTheme :=
  match st.resolvedTheme with
  | some t => t
  | none => resolveTheme (themeOfAttr st.themeAttr) env.prefersDark

/-- `GitHubCode.#showError`: replaces the shadow DOM with an error div
(so no tab panel survives) and applies stylesheets, which resolves and
caches the theme. -/
def showError (st : WidgetState) (env : Env) (message : String) :
    WidgetState × List Event :=
  ({ st with domPanels := [],
             resolvedTheme := some (currentResolvedTheme st env) },
   [Event.emitError message])

/-- The record `GitHubCode.#render` builds for one URL (lines 176-198):
well-formed URLs give an unsettled record; a URL that fails structural
decomposition gives a record that is already settled with the failure
recorded (`loaded: true` — "Parse error - no point retrying"). -/
def buildRecord (url : String) : FileMetadata :=
  match parseGitHubUrl url with
  | Except.ok parts =>
    { filename := parts.filename, rawUrl := parts.rawUrl, url := url,
      code := none, error := none, loaded := false }
  | Except.error e =>
    { filename := extractFilenameFromUrl url, rawUrl := url, url := url,
      code := none, error := some e, loaded := true }

/-- The message of the missing/empty `file` attribute error. -/
def missingAttrMsg : String :=
  "Error: \"file\" attribute is required. Please provide a GitHub file URL."

/-- The validation error message for an invalid URL (the offending value
is HTML-escaped before interpolation, github-code.ts lines 167-171). -/
def invalidUrlMsg (url : String) : String :=
  "Error: Invalid GitHub URL format: " ++ escapeHtml url ++
    ". Expected format: https://github.com/\x7bowner\x7d/\x7brepo\x7d/blob/\x7bcommit\x7d/\x7bpath\x7d"

/-- Where `#render` stands when its synchronous prefix returns: finished
(early return), or about to await `loadHighlightJS` and then display a
single file or the tabbed view. -/
inductive RenderCont
  | halted
  | continueSingle
  | continueTabs
deriving DecidableEq, Repr

/-- `GitHubCode.#renderTabsSkeletonStructure`: writes the tabbed template
(tab buttons plus one skeleton panel for the current active index) into
the shadow root and applies stylesheets. -/
def renderTabsSkeletonStructure (st : WidgetState) (env : Env) :
    WidgetState × List Event :=
  let ai := st.tabState.getActiveTabIndex
  ({ st with domPanels := [ai],
             resolvedTheme := some (currentResolvedTheme st env) },
   [Event.emitTabbedSkeleton ai st.files.length])

/-- The synchronous prefix of `GitHubCode.#render` (lines 149-227, up to
`await loadHighlightJS()`): read and parse the `file` attribute, validate
every URL, build the file records, and emit the immediate structural
skeleton view (single-file or tabbed), or an error view on the early
returns.  A missing attribute and an empty/whitespace attribute take the
same error path (`!fileAttr` catches the empty string,
`fileUrls.length === 0` the rest). -/
def renderSync (st : WidgetState) (env : Env) :
    WidgetState × List Event × RenderCont :=
  match st.fileAttr with
  | none =>
    let p := showError st env missingAttrMsg
    (p.1, p.2, RenderCont.halted)
  | some attr =>
    if attr = "" then
      let p := showError st env missingAttrMsg
      (p.1, p.2, RenderCont.halted)
    else
      let fileUrls := parseFileAttribute attr
      if fileUrls.length = 0 then
        let p := showError st env missingAttrMsg
        (p.1, p.2, RenderCont.halted)
      else
        match fileUrls.find? (fun url => !isValidGitHubUrl url) with
        | some invalidUrl =>
          let p := showError st env (invalidUrlMsg invalidUrl)
          (p.1, p.2, RenderCont.halted)
        | none =>
          let st1 := { st with files := fileUrls.map buildRecord }
          if fileUrls.length = 1 then
            match st1.files with
            | [] => (st1, [], RenderCont.halted)
            | file :: _ =>
              match file.error with
              | some e =>
                let p := showError st1 env ("Error loading code: " ++ e)
                (p.1, p.2, RenderCont.halted)
              | none =>
                ({ st1 with domPanels := [],
                            resolvedTheme := some (currentResolvedTheme st1 env) },
                 [Event.emitSingleSkeleton file.filename], RenderCont.continueSingle)
          else
            let p := renderTabsSkeletonStructure st1 env
            (p.1, p.2, RenderCont.continueTabs)

/-- `GitHubCode.#loadAndRenderTabContent` (lines 380-409): settle the
record via `ensureFileLoaded` (no forced retry), then replace the panel's
skeleton with content, or with a retryable error when a failure (or a
missing body) is recorded.  `#getFile` throwing on a bad index cannot
happen on the indices the orchestrator passes; it is modelled as a
no-op. -/
def loadAndRenderTabContent (st : WidgetState) (index : Nat) (env : Env) :
    WidgetState × List Event :=
  match st.files.get? index with
  | none => (st, [])
  | some file =>
    let r := ensureFileLoaded file false env.fetchResult
    let st1 := { st with files := st.files.set index r.1 }
    let fetchEvs := if r.2 then [Event.fetchFile file.rawUrl] else []
    if r.1.error.isSome || r.1.code.isNone then
      (st1, fetchEvs ++
        [Event.emitFileError index
          (r.1.error.getD "Failed to load content: No content available") true])
    else
      (st1, fetchEvs ++ [Event.emitContent index])

/-- `GitHubCode.#switchToTab` (lines 352-378): update button states; when
the target panel is absent, create its skeleton panel, mark the tab
rendered, and load its content lazily; an existing panel is only
re-shown. -/
def switchToTab (st : WidgetState) (newIndex : Nat) (env : Env) :
    WidgetState × List Event :=
  if st.domPanels.contains newIndex then (st, [])
  else
    let st1 := { st with domPanels := st.domPanels ++ [newIndex],
                         tabState := st.tabState.markTabAsRendered newIndex }
    loadAndRenderTabContent st1 newIndex env

/-- `GitHubCode.#renderTabsStructure` (lines 291-350): write the tabbed
template, install the click and keyboard handlers on the tab list (the
scaffold), mark the active tab rendered, and load its content. -/
def renderTabsStructure (st : WidgetState) (env : Env) :
    WidgetState × List Event :=
  let ai := st.tabState.getActiveTabIndex
  let st0 := { st with domPanels := [ai],
                       resolvedTheme := some (currentResolvedTheme st env) }
  let st1 := { st0 with tabState := st0.tabState.markTabAsRendered ai }
  let r := loadAndRenderTabContent st1 ai env
  (r.1, Event.emitTabbedSkeleton ai st.files.length :: Event.buildScaffold ai :: r.2)

/-- `GitHubCode.#displayWithTabs` (lines 271-280): first full render
builds the whole structure and sets the scaffold flag; afterwards a pass
only switches to the active tab. -/
def displayWithTabs (st : WidgetState) (env : Env) : WidgetState × List Event :=
  if st.tabState.areTabsFullyRendered then
    switchToTab st st.tabState.getActiveTabIndex env
  else
    let r := renderTabsStructure st env
    ({ r.1 with tabState := r.1.tabState.setTabsFullyRendered true }, r.2)

/-- `GitHubCode.#displayCode` (lines 237-269): re-emit the single-file
skeleton, settle the record via `ensureFileLoaded` (no forced retry), and
emit the content, or a retryable error view when a failure is
recorded. -/
def displayCode (st : WidgetState) (index : Nat) (env : Env) :
    WidgetState × List Event :=
  match st.files.get? index with
  | none => (st, [])
  | some file =>
    let st0 := { st with domPanels := [],
                         resolvedTheme := some (currentResolvedTheme st env) }
    let r := ensureFileLoaded file false env.fetchResult
    let st1 := { st0 with files := st0.files.set index r.1 }
    let fetchEvs := if r.2 then [Event.fetchFile file.rawUrl] else []
    match r.1.error with
    | some e =>
      (st1, Event.emitSingleSkeleton file.filename :: fetchEvs ++
        [Event.emitFileError index e true])
    | none =>
      (st1, Event.emitSingleSkeleton file.filename :: fetchEvs ++
        [Event.emitContent index])

/-- The continuation of `GitHubCode.#render` after its synchronous prefix:
`await loadHighlightJS()` (a failure is terminal for the pass and shown
as a distinct error), then `#displayCode(0)` or `#displayWithTabs()`. -/
def renderRest (st : WidgetState) (cont : RenderCont) (env : Env) :
    WidgetState × List Event :=
  match cont with
  | RenderCont.halted => (st, [])
  | RenderCont.continueSingle =>
    match env.hljsLoad with
    | Except.error e =>
      let p := showError st env ("Error loading highlight.js: " ++ e)
      (p.1, Event.loadCapability :: p.2)
    | Except.ok _ =>
      let p := displayCode st 0 env
      (p.1, Event.loadCapability :: p.2)
  | RenderCont.continueTabs =>
    match env.hljsLoad with
    | Except.error e =>
      let p := showError st env ("Error loading highlight.js: " ++ e)
      (p.1, Event.loadCapability :: p.2)
    | Except.ok _ =>
      let p := displayWithTabs st env
      (p.1, Event.loadCapability :: p.2)

/-- One complete uninterleaved `GitHubCode.#render` pass. -/
def render (st : WidgetState) (env : Env) : WidgetState × List Event :=
  let p := renderSync st env
  let q := renderRest p.1 p.2.2 env
  (q.1, p.2.1 ++ q.2)

/-- `attributeChangedCallback('file', …)` up to the moment the handler
returns (github-code.ts lines 91-107): remember the previous active
index, reset the tab render tracking, run `#render`'s synchronous prefix
(the `void this.#render()` call runs exactly that far before its first
`await` suspends), then keep the previous index when it is still within
bounds of the re-parsed file list and fall back to `0` otherwise. -/
def fileChangedPre (st : WidgetState) (newAttr : String) (env : Env) :
    WidgetState × List Event × RenderCont :=
  let previousIndex := st.tabState.getActiveTabIndex
  let st0 := { st with fileAttr := some newAttr, tabState := st.tabState.reset }
  let p := renderSync st0 env
  let st2 :=
    { p.1 with tabState :=
        if previousIndex < p.1.files.length then
          p.1.tabState.setActiveTabIndex previousIndex
        else
          p.1.tabState.setActiveTabIndex 0 }
  (st2, p.2.1, p.2.2)

/-- The whole reaction to a genuine `file` attribute change: the handler
(`fileChangedPre`), then the suspended render continuation. -/
def fileChanged (st : WidgetState) (newAttr : String) (env : Env) :
    WidgetState × List Event :=
  let p := fileChangedPre st newAttr env
  let q := renderRest p.1 p.2.2 env
  (q.1, p.2.1 ++ q.2)

/-- The reaction to a genuine `theme` attribute change
(github-code.ts lines 108-111): clear the cached resolved theme and
re-render. -/
def themeChanged (st : WidgetState) (newTheme : Option String) (env : Env) :
    WidgetState × List Event :=
  render { st with themeAttr := newTheme, resolvedTheme := none } env

/-- The tab click handler installed by `#renderTabsStructure`
(lines 302-311): a click on a tab other than the active one updates the
active index and re-enters `#displayWithTabs`. -/
def clickTab (st : WidgetState) (newIndex : Nat) (env : Env) :
    WidgetState × List Event :=
  if newIndex ≠ st.tabState.getActiveTabIndex then
    displayWithTabs { st with tabState := st.tabState.setActiveTabIndex newIndex } env
  else (st, [])

/-- The retry button handler installed by `#loadAndRenderTabContent` on a
failed panel (lines 391-401): show the skeleton, force a fresh settle
attempt (`ensureFileLoaded(file, true)`, which never short-circuits),
then re-run `#loadAndRenderTabContent` for that panel. -/
def retryClickTab (st : WidgetState) (index : Nat) (env : Env) :
    WidgetState × List Event :=
  match st.files.get? index with
  | none => (st, [])
  | some file =>
    let r := ensureFileLoaded file true env.fetchResult
    let st1 := { st with files := st.files.set index r.1 }
    let fetchEvs := if r.2 then [Event.fetchFile file.rawUrl] else []
    let q := loadAndRenderTabContent st1 index env
    (q.1, fetchEvs ++ q.2)

/-! ### Invariant predicates and concrete scenarios -/

/-- The settlement invariant of a `FileMetadata` record: once a record is
settled (`loaded = true`), exactly one of content and failure is present. -/
def settledExclusive (f : FileMetadata) : Prop :=
  f.loaded = true →
    (f.code.isSome = true ∧ f.error = none) ∨ (f.code = none ∧ f.error.isSome = true)

/-- A benign host environment: light system preference, highlight.js
loads, every fetch succeeds with body `x`. -/
def env0 : Env :=
  { prefersDark := false, hljsLoad := Except.ok (), fetchResult := fun _ => Except.ok "x" }

/-- A freshly connected widget carrying the given `file` attribute. -/
def widget0 (attr : String) : WidgetState :=
  { fileAttr := some attr, themeAttr := some "light", files := [],
    tabState := { activeTabIndex := 0, renderedTabs := [], tabsFullyRendered := false },
    resolvedTheme := none, domPanels := [] }

/-- A valid, parseable GitHub blob URL. -/
def urlA : String := "https://github.com/o/r/blob/c/a.ts"

/-- A URL accepted by `isValidGitHubUrl` (the validation regexp) but
rejected by `parseGitHubUrl` (no path after the ref segment). -/
def urlBad : String := "https://github.com/o/r/blob/main"

/-- A two-file configuration. -/
def attr2 : String :=
  "https://github.com/o/r/blob/c/a.ts,https://github.com/o/r/blob/c/b.ts"

/-- A three-file configuration. -/
def attr3 : String :=
  "https://github.com/o/r/blob/c/a.ts,https://github.com/o/r/blob/c/b.ts,https://github.com/o/r/blob/c/c.ts"

/-- A configuration whose first locator passes validation but fails
structural decomposition. -/
def attrC5 : String := urlBad ++ "," ++ urlA

/-- The single-file widget after its initial successful render
(content displayed). -/
def stSingleRendered : WidgetState := (render (widget0 urlA) env0).1

/-- The two-file widget after its initial render (scaffold built). -/
def stMultiRendered : WidgetState := (render (widget0 attr2) env0).1

/-- The three-file widget after its initial render. -/
def stThree : WidgetState := (render (widget0 attr3) env0).1

/-- The three-file widget after the user clicked tab 2. -/
def stThreeTab2 : WidgetState := (clickTab stThree 2 env0).1

/-- The settled record used to instantiate the cache laws. -/
def recSettled : FileMetadata :=
  { filename := "a.ts", rawUrl := "https://raw.githubusercontent.com/o/r/c/a.ts",
    url := urlA, code := some "x", error := none, loaded := true }

/-- The loader's pristine module state (no ambient capability, nothing in
flight). -/
def loaderInit : LoaderState :=
  { hljsPresent := false, loadingPromise := none, loadedHighlightJSUrl := none,
    highlightJSSource := HSource.globalAmbient, nextPromiseId := 0 }

/-! ## Theorems -/

/-! ### Helper lemmas -/

/-- No character of `escapeChar`'s output can open or close a tag. -/
theorem escapeChar_no_markup (c : Char) :
    '<' ∉ escapeChar c ∧ '>' ∉ escapeChar c := by
  unfold escapeChar
  split_ifs with h1 h2 h3 h4
  · exact ⟨by decide, by decide⟩
  · exact ⟨by decide, by decide⟩
  · exact ⟨by decide, by decide⟩
  · exact ⟨by decide, by decide⟩
  · constructor <;> intro hmem <;> simp only [List.mem_singleton] at hmem
    · exact h2 hmem.symm
    · exact h3 hmem.symm

/-- `escapeHtml` output never contains a raw `<` or `>`. -/
theorem escapeHtml_no_markup (s : String) :
    '<' ∉ (escapeHtml s).data ∧ '>' ∉ (escapeHtml s).data := by
  show '<' ∉ s.data.flatMap escapeChar ∧ '>' ∉ s.data.flatMap escapeChar
  constructor <;> intro hmem <;> rw [List.mem_flatMap] at hmem <;>
    obtain ⟨a, _, ha⟩ := hmem
  · exact (escapeChar_no_markup a).1 ha
  · exact (escapeChar_no_markup a).2 ha

/-- When every parsed URL is valid, the orchestrator's search for an
invalid one comes up empty. -/
theorem find?_invalid_eq_none (l : List String)
    (h : ∀ u ∈ l, isValidGitHubUrl u = true) :
    l.find? (fun url => !isValidGitHubUrl url) = none := by
  rw [List.find?_eq_none]
  intro x hx
  simp [h x hx]

/-- The empty attribute parses to no locators. -/
theorem parseFileAttribute_empty : parseFileAttribute "" = [] := by decide

/-- Attaching calls: with the capability absent and a promise in flight,
every further `loadHighlightJS` call returns that promise and leaves the
loader state unchanged. -/
theorem runCalls_attached (st : LoaderState) (p : Nat) (cs : List (Option String))
    (h1 : st.hljsPresent = false) (h2 : st.loadingPromise = some p) :
    runCalls st cs = (st, cs.map fun _ => LoadCallResult.attached p) := by
  induction cs with
  | nil => simp [runCalls]
  | cons c cs ih => simp [runCalls, loadHighlightJS, h1, h2, ih]

/-- Attached results never count as started load attempts. -/
theorem filter_isStart_attached (p : Nat) (cs : List (Option String)) :
    ((cs.map fun _ => LoadCallResult.attached p).filter isStart) = [] := by
  induction cs with
  | nil => rfl
  | cons c cs ih => simp [isStart, ih]

/-- Symbolic evaluation of `renderSync` on a valid multi-file
configuration: the tabbed skeleton for the current (unclamped) active
index is emitted and the pass continues towards `#displayWithTabs`. -/
theorem renderSync_multi (st : WidgetState) (env : Env) (attr : String)
    (hattr : st.fileAttr = some attr)
    (hval : ∀ u ∈ parseFileAttribute attr, isValidGitHubUrl u = true)
    (hlen : 2 ≤ (parseFileAttribute attr).length) :
    renderSync st env =
      ({ st with files := (parseFileAttribute attr).map buildRecord,
                 domPanels := [st.tabState.activeTabIndex],
                 resolvedTheme := some (currentResolvedTheme st env) },
       [Event.emitTabbedSkeleton st.tabState.activeTabIndex
          (parseFileAttribute attr).length],
       RenderCont.continueTabs) := by
  have hattr0 : attr ≠ "" := by
    intro h0
    subst h0
    rw [parseFileAttribute_empty] at hlen
    simp at hlen
  have hne : ¬ (parseFileAttribute attr).length = 0 := by omega
  have hone : ¬ (parseFileAttribute attr).length = 1 := by omega
  simp only [renderSync, hattr, if_neg hattr0, if_neg hne,
    find?_invalid_eq_none _ hval, if_neg hone, renderTabsSkeletonStructure,
    TabState.getActiveTabIndex, List.length_map]
  rfl

/-- Symbolic evaluation of `renderSync` on a valid single-file
configuration whose URL decomposes: the single-file skeleton is emitted
and the pass continues towards `#displayCode`. -/
theorem renderSync_single_ok (st : WidgetState) (env : Env) (attr u : String)
    (parts : GitHubUrlParts)
    (hattr : st.fileAttr = some attr) (hu : parseFileAttribute attr = [u])
    (hval : ∀ v ∈ parseFileAttribute attr, isValidGitHubUrl v = true)
    (hp : parseGitHubUrl u = Except.ok parts) :
    renderSync st env =
      ({ st with files := [buildRecord u], domPanels := [],
                 resolvedTheme := some (currentResolvedTheme st env) },
       [Event.emitSingleSkeleton parts.filename],
       RenderCont.continueSingle) := by
  have hattr0 : attr ≠ "" := by
    intro h0
    subst h0
    rw [parseFileAttribute_empty] at hu
    simp at hu
  have hvu : isValidGitHubUrl u = true := hval u (by rw [hu]; exact List.mem_singleton_self u)
  simp only [renderSync, hattr, hu]
  rw [if_neg hattr0]
  simp [List.find?, hvu, buildRecord, hp, currentResolvedTheme]

/-- `renderSync` leaves the `TabState` instance untouched and, on a valid
configuration, replaces the file records with those built from the parsed
locator list. -/
theorem renderSync_valid_files (st : WidgetState) (env : Env) (attr : String)
    (hattr : st.fileAttr = some attr)
    (hne : (parseFileAttribute attr).length ≠ 0)
    (hval : ∀ u ∈ parseFileAttribute attr, isValidGitHubUrl u = true) :
    (renderSync st env).1.files = (parseFileAttribute attr).map buildRecord
    ∧ (renderSync st env).1.tabState = st.tabState := by
  have hattr0 : attr ≠ "" := by
    intro h0
    subst h0
    exact hne (by rw [parseFileAttribute_empty]; rfl)
  by_cases hone : (parseFileAttribute attr).length = 1
  · obtain ⟨u, hu⟩ := List.length_eq_one.mp hone
    have hvu : isValidGitHubUrl u = true := hval u (by rw [hu]; exact List.mem_singleton_self u)
    simp only [renderSync, hattr, if_neg hattr0, if_neg hne,
      if_pos hone, hu, List.map_cons, List.map_nil]
    cases he : (buildRecord u).error <;> simp [showError, he, List.find?, hvu]
  · simp only [renderSync, hattr, if_neg hattr0, if_neg hne,
      find?_invalid_eq_none _ hval, if_neg hone, renderTabsSkeletonStructure]
    simp

/-! ### Claim theorems -/

/-- C4: for a record already settled (`loaded = true`), `ensureFileLoaded`
without `forceRetry` returns immediately with no transport access and no
change; hence a second such call also makes no transport call, so two
calls on a settled record make at most one (in fact zero) transport
calls in total. -/
theorem ensureFileLoaded_idempotent_settled (file : FileMetadata)
    (fetchR : String → Except String String) (h : file.loaded = true) :
    ensureFileLoaded file false fetchR = (file, false)
    ∧ ensureFileLoaded (ensureFileLoaded file false fetchR).1 false fetchR = (file, false) := by
  have h1 : ensureFileLoaded file false fetchR = (file, false) := by
    simp [ensureFileLoaded, h]
  refine ⟨h1, ?_⟩
  rw [h1]
  exact h1

/-- Witness for C4 at a concrete settled record. -/
theorem ensureFileLoaded_idempotent_settled_witness :
    ensureFileLoaded recSettled false (fun _ => Except.ok "y") = (recSettled, false) :=
  (ensureFileLoaded_idempotent_settled recSettled (fun _ => Except.ok "y") rfl).1

/-- C6: the settlement invariant — `loaded = true` implies exactly one of
`code`/`error` present — holds for every record `#render` constructs and
is preserved by every completed `ensureFileLoaded` attempt (initial load,
failure, or forced retry). -/
theorem settled_record_content_xor_failure :
    (∀ url : String, settledExclusive (buildRecord url))
    ∧ ∀ (f : FileMetadata) (isRetry : Bool) (fetchR : String → Except String String),
        settledExclusive f → settledExclusive (ensureFileLoaded f isRetry fetchR).1 := by
  constructor
  · intro url
    unfold settledExclusive buildRecord
    cases h : parseGitHubUrl url <;> simp
  · intro f isRetry fetchR hf
    by_cases hc : (f.loaded && !isRetry) = true
    · simpa [ensureFileLoaded, hc] using hf
    · unfold settledExclusive ensureFileLoaded
      rw [if_neg hc]
      rcases hfr : fetchR (if isRetry then { f with loaded := false, error := none } else f).rawUrl
          with code | e <;>
        simp [hfr]

/-- Witness for C6: the preservation law applied to a concrete settled
record. -/
theorem settled_record_content_xor_failure_witness :
    settledExclusive (ensureFileLoaded recSettled false (fun _ => Except.ok "y")).1 :=
  settled_record_content_xor_failure.2 recSettled false (fun _ => Except.ok "y")
    (fun _ => Or.inl ⟨rfl, rfl⟩)

/-- C9: every displayed error view interpolates only the HTML-escaped form
of its message — `getErrorContentHtml` and `#showError` both wrap
`escapeHtml message` in fixed markup — and the escaped form contains no
raw `<` or `>`, so external input never becomes live markup. -/
theorem error_views_escape_messages (message : String) (showRetry : Bool) :
    ('<' ∉ (escapeHtml message).data ∧ '>' ∉ (escapeHtml message).data)
    ∧ getErrorContentHtml message showRetry =
        "<div class=\"error\">" ++ escapeHtml message ++
          (if showRetry then "<button class=\"retry-button\">Retry</button>" else "") ++
          "</div>"
    ∧ showErrorHtml message =
        "\n    <div class=\"error\">" ++ escapeHtml message ++ "</div>\n    " :=
  ⟨escapeHtml_no_markup message, rfl, rfl⟩

/-- C10: `handleTabKeyNavigation` returns `none` for every key other than
ArrowLeft/ArrowRight/Home/End; any returned index lies in
`[0, maxIndex]`; ArrowRight at the last tab wraps to `0`, ArrowLeft at
the first wraps to `maxIndex`, Home goes to `0`, End to `maxIndex`. -/
theorem handleTabKeyNavigation_spec (key : String) (c m : Int)
    (h0 : 0 ≤ c) (hm : c ≤ m) :
    (key ≠ "ArrowLeft" ∧ key ≠ "ArrowRight" ∧ key ≠ "Home" ∧ key ≠ "End" →
      handleTabKeyNavigation key c m = none)
    ∧ (∀ r : Int, handleTabKeyNavigation key c m = some r → 0 ≤ r ∧ r ≤ m)
    ∧ handleTabKeyNavigation "ArrowRight" m m = some 0
    ∧ handleTabKeyNavigation "ArrowLeft" 0 m = some m
    ∧ handleTabKeyNavigation "Home" c m = some 0
    ∧ handleTabKeyNavigation "End" c m = some m := by
  refine ⟨?_, ?_, ?_, ?_, ?_, ?_⟩
  · rintro ⟨k1, k2, k3, k4⟩
    simp [handleTabKeyNavigation, k1, k2, k3, k4]
  · intro r hr
    unfold handleTabKeyNavigation at hr
    split_ifs at hr <;> simp_all <;> omega
  · simp [handleTabKeyNavigation]
  · simp [handleTabKeyNavigation]
  · simp [handleTabKeyNavigation]
  · simp [handleTabKeyNavigation]

/-- Witness for C10 at key End, indices 1 and 3. -/
theorem handleTabKeyNavigation_spec_witness :
    handleTabKeyNavigation "End" 1 3 = some 3 :=
  (handleTabKeyNavigation_spec "End" 1 3 (by decide) (by decide)).2.2.2.2.2

/-- C3: N concurrent `loadHighlightJS` calls (N ≥ 2) issued while the
capability is absent and nothing has completed produce exactly one
started load attempt; every call ends up awaiting the same promise, so
under any settlement of that promise all callers observe the same
outcome (all succeed or all fail together). -/
theorem loadHighlightJS_concurrent_singleton (st : LoaderState)
    (calls : List (Option String))
    (habsent : st.hljsPresent = false) (hidle : st.loadingPromise = none)
    (hN : 2 ≤ calls.length) :
    ((runCalls st calls).2.filter isStart).length = 1
    ∧ (∀ r ∈ (runCalls st calls).2, pidOf r = some st.nextPromiseId)
    ∧ ∀ settle : Nat → Bool, ∀ r ∈ (runCalls st calls).2, ∀ r' ∈ (runCalls st calls).2,
        (pidOf r).map settle = (pidOf r').map settle := by
  cases calls with
  | nil => simp at hN
  | cons c cs =>
    have hfirst : loadHighlightJS st c =
        ({ st with
            loadedHighlightJSUrl := some (c.getD DEFAULT_URL),
            highlightJSSource :=
              if c.isSome then HSource.userProvided else HSource.cdnDefault,
            loadingPromise := some st.nextPromiseId,
            nextPromiseId := st.nextPromiseId + 1 },
         LoadCallResult.started st.nextPromiseId (c.getD DEFAULT_URL)) := by
      simp [loadHighlightJS, habsent, hidle]
    have hrest := runCalls_attached
      ({ st with
          loadedHighlightJSUrl := some (c.getD DEFAULT_URL),
          highlightJSSource :=
            if c.isSome then HSource.userProvided else HSource.cdnDefault,
          loadingPromise := some st.nextPromiseId,
          nextPromiseId := st.nextPromiseId + 1 })
      st.nextPromiseId cs habsent rfl
    have hrun : runCalls st (c :: cs) =
        ((runCalls st (c :: cs)).1,
         LoadCallResult.started st.nextPromiseId (c.getD DEFAULT_URL) ::
           cs.map fun _ => LoadCallResult.attached st.nextPromiseId) := by
      simp [runCalls, hfirst, hrest]
    have hmem : ∀ r ∈ (runCalls st (c :: cs)).2, pidOf r = some st.nextPromiseId := by
      rw [hrun]
      intro r hr
      rcases List.mem_cons.mp hr with h | h
      · rw [h]; rfl
      · obtain ⟨x, _, hx⟩ := List.mem_map.mp h
        rw [← hx]; rfl
    refine ⟨?_, hmem, ?_⟩
    · rw [hrun]
      simp [List.filter_cons, isStart, filter_isStart_attached]
    · intro settle r hr r' hr'
      rw [hmem r hr, hmem r' hr']

/-- Witness for C3: two concurrent calls from the pristine loader state. -/
theorem loadHighlightJS_concurrent_singleton_witness :
    ((runCalls loaderInit [none, none]).2.filter isStart).length = 1 :=
  (loadHighlightJS_concurrent_singleton loaderInit [none, none] rfl rfl (by decide)).1

/-- C2: when the parsed locator list contains an invalid locator, the
render pass emits exactly one validation error — built from the first
invalid locator in original order (`find?`) — and performs no transport
call and no capability load before terminating. -/
theorem first_invalid_locator_short_circuits (st : WidgetState) (env : Env)
    (attr invalidUrl : String) (hattr : st.fileAttr = some attr)
    (hfind : (parseFileAttribute attr).find? (fun url => !isValidGitHubUrl url)
      = some invalidUrl) :
    (render st env).2 = [Event.emitError (invalidUrlMsg invalidUrl)]
    ∧ Event.loadCapability ∉ (render st env).2
    ∧ ∀ u, Event.fetchFile u ∉ (render st env).2 := by
  have hne0 : parseFileAttribute attr ≠ [] := by
    intro h0
    rw [h0] at hfind
    simp at hfind
  have hattr0 : attr ≠ "" := by
    intro h0
    subst h0
    exact hne0 parseFileAttribute_empty
  have hlen : ¬ (parseFileAttribute attr).length = 0 := by
    simpa [List.length_eq_zero] using hne0
  have hmain : (render st env).2 = [Event.emitError (invalidUrlMsg invalidUrl)] := by
    simp only [render, renderSync, hattr, if_neg hattr0, if_neg hlen, hfind]
    simp [renderRest, showError]
  refine ⟨hmain, ?_, ?_⟩
  · rw [hmain]; simp
  · intro u; rw [hmain]; simp

/-- Witness for C2 at the one-element invalid configuration `notaurl`. -/
theorem first_invalid_locator_short_circuits_witness :
    (render (widget0 "notaurl") env0).2 = [Event.emitError (invalidUrlMsg "notaurl")] :=
  (first_invalid_locator_short_circuits (widget0 "notaurl") env0 "notaurl" "notaurl"
    rfl (by decide)).1

/-- C7: on a configuration change (to a valid locator list) the previous
active index is preserved exactly when it is still within bounds of the
new file count and reset to `0` otherwise, while the rendered-tab set and
the scaffold flag are reset; and `TabState.reset` itself clears only the
rendered set and the scaffold flag, leaving the active index unchanged. -/
theorem reconfiguration_clamps_active_index (st : WidgetState) (attr : String)
    (env : Env)
    (hne : (parseFileAttribute attr).length ≠ 0)
    (hval : ∀ u ∈ parseFileAttribute attr, isValidGitHubUrl u = true) :
    (fileChangedPre st attr env).1.files.length = (parseFileAttribute attr).length
    ∧ (fileChangedPre st attr env).1.tabState.activeTabIndex =
        (if st.tabState.activeTabIndex < (parseFileAttribute attr).length
         then st.tabState.activeTabIndex else 0)
    ∧ (fileChangedPre st attr env).1.tabState.renderedTabs = []
    ∧ (fileChangedPre st attr env).1.tabState.tabsFullyRendered = false
    ∧ ∀ t : TabState, t.reset =
        { activeTabIndex := t.activeTabIndex, renderedTabs := [],
          tabsFullyRendered := false } := by
  obtain ⟨hfiles, htab⟩ := renderSync_valid_files
    { st with fileAttr := some attr, tabState := st.tabState.reset } env attr rfl hne hval
  refine ⟨?_, ?_, ?_, ?_, fun t => rfl⟩
  · simp [fileChangedPre, hfiles]
  · simp only [fileChangedPre, TabState.getActiveTabIndex, hfiles, htab, List.length_map]
    split_ifs <;> simp [TabState.setActiveTabIndex, TabState.reset]
  · simp only [fileChangedPre, TabState.getActiveTabIndex, hfiles, htab, List.length_map]
    split_ifs <;> simp [TabState.setActiveTabIndex, TabState.reset]
  · simp only [fileChangedPre, TabState.getActiveTabIndex, hfiles, htab, List.length_map]
    split_ifs <;> simp [TabState.setActiveTabIndex, TabState.reset]

/-- Witness for C7 at a concrete reconfiguration to two valid files. -/
theorem reconfiguration_clamps_active_index_witness :
    (fileChangedPre (widget0 urlA) attr2 env0).1.tabState.renderedTabs = [] :=
  (reconfiguration_clamps_active_index (widget0 urlA) attr2 env0
    (by decide) (by decide)).2.2.1

/-- C8 (amended): on a valid configuration the very first emission of the
render pass is the structural view — the single-file skeleton for one
parseable record, the tabbed skeleton for two or more — so it precedes
the capability load and every fetch; the tabbed skeleton is built from
TabState's current active index as-is (not clamped — see the
counterexample for the clamp part of the original claim). -/
theorem structural_view_precedes_async (st : WidgetState) (env : Env) (attr : String)
    (hattr : st.fileAttr = some attr)
    (hval : ∀ u ∈ parseFileAttribute attr, isValidGitHubUrl u = true) :
    (∀ u parts, parseFileAttribute attr = [u] → parseGitHubUrl u = Except.ok parts →
      (render st env).2.head? = some (Event.emitSingleSkeleton parts.filename))
    ∧ (2 ≤ (parseFileAttribute attr).length →
      (render st env).2.head? =
        some (Event.emitTabbedSkeleton st.tabState.activeTabIndex
          (parseFileAttribute attr).length)) := by
  constructor
  · intro u parts hu hp
    have hrs := renderSync_single_ok st env attr u parts hattr hu hval hp
    simp [render, hrs]
  · intro hlen
    have hrs := renderSync_multi st env attr hattr hval hlen
    simp [render, hrs]

/-- Witness for C8 on a fresh two-file widget. -/
theorem structural_view_precedes_async_witness :
    (render (widget0 attr2) env0).2.head? =
      some (Event.emitTabbedSkeleton (widget0 attr2).tabState.activeTabIndex
        (parseFileAttribute attr2).length) :=
  (structural_view_precedes_async (widget0 attr2) env0 attr2 rfl (by decide)).2 (by decide)

/-- C1 (amended): a theme-mode change clears the cached resolved theme and
re-runs the full render pass, which re-resolves the theme; for a
multi-file widget whose scaffold is already built this pass performs no
transport call and does not rebuild the scaffold (the single-file case
does re-fetch — see the counterexample). -/
theorem theme_change_no_refetch_with_scaffold (st : WidgetState) (env : Env)
    (attr : String) (newTheme : Option String)
    (hattr : st.fileAttr = some attr)
    (hval : ∀ u ∈ parseFileAttribute attr, isValidGitHubUrl u = true)
    (hlen : 2 ≤ (parseFileAttribute attr).length)
    (hscaffold : st.tabState.tabsFullyRendered = true) :
    (∀ u, Event.fetchFile u ∉ (themeChanged st newTheme env).2)
    ∧ (∀ i, Event.buildScaffold i ∉ (themeChanged st newTheme env).2)
    ∧ (themeChanged st newTheme env).1.resolvedTheme =
        some (resolveTheme (themeOfAttr newTheme) env.prefersDark) := by
  have hrs := renderSync_multi { st with themeAttr := newTheme, resolvedTheme := none }
    env attr hattr hval hlen
  cases hload : env.hljsLoad with
  | error e =>
    refine ⟨?_, ?_, ?_⟩ <;>
      simp [themeChanged, render, hrs, renderRest, hload, showError, currentResolvedTheme]
  | ok _ =>
    refine ⟨?_, ?_, ?_⟩ <;>
      simp [themeChanged, render, hrs, renderRest, hload, displayWithTabs,
        TabState.areTabsFullyRendered, hscaffold, switchToTab,
        TabState.getActiveTabIndex, currentResolvedTheme]

/-- Witness for C1 on the rendered two-file widget switching to dark. -/
theorem theme_change_no_refetch_with_scaffold_witness :
    (themeChanged stMultiRendered (some "dark") env0).1.resolvedTheme =
      some (resolveTheme (themeOfAttr (some "dark")) env0.prefersDark) :=
  (theme_change_no_refetch_with_scaffold stMultiRendered env0 attr2 (some "dark")
    (by decide) (by decide) (by decide) (by decide)).2.2

/-- Counterexample to C1 as stated: for a single-file widget whose content
is already rendered, a theme-mode change triggers a render pass that
performs a new transport access for the file content (the records are
rebuilt unsettled). -/
theorem theme_change_refetches_single_file :
    Event.emitContent 0 ∈ (render (widget0 urlA) env0).2
    ∧ Event.fetchFile "https://raw.githubusercontent.com/o/r/c/a.ts"
        ∈ (themeChanged stSingleRendered (some "dark") env0).2 := by
  decide

/-- C5 (amended): a locator that passes validation but fails structural
decomposition yields a record created settled (`loaded = true`) with the
failure recorded and no content, and the automatic load path never
touches it — `ensureFileLoaded` without `forceRetry` returns it unchanged
with no transport call; only a forced retry performs a transport
attempt. -/
theorem parse_failure_record_settled_unretried (url : String)
    (fetchR : String → Except String String)
    (_hvalid : isValidGitHubUrl url = true)
    (hfail : ∃ e, parseGitHubUrl url = Except.error e) :
    (buildRecord url).loaded = true
    ∧ (buildRecord url).error.isSome = true
    ∧ (buildRecord url).code = none
    ∧ ensureFileLoaded (buildRecord url) false fetchR = (buildRecord url, false)
    ∧ (ensureFileLoaded (buildRecord url) true fetchR).2 = true := by
  obtain ⟨e, he⟩ := hfail
  have hb : buildRecord url =
      { filename := extractFilenameFromUrl url, rawUrl := url, url := url,
        code := none, error := some e, loaded := true } := by
    simp [buildRecord, he]
  refine ⟨by rw [hb], by rw [hb]; rfl, by rw [hb], ?_, ?_⟩
  · rw [hb]
    simp [ensureFileLoaded]
  · rw [hb]
    simp only [ensureFileLoaded]
    simp only [Bool.not_true, Bool.and_false, Bool.false_eq_true, if_false, if_true,
      reduceIte]
    rcases hfr : fetchR url with code | msg <;> simp [hfr]

/-- Witness for C5 at the undecomposable URL. -/
theorem parse_failure_record_settled_unretried_witness :
    ensureFileLoaded (buildRecord urlBad) false (fun _ => Except.ok "x") =
      (buildRecord urlBad, false) :=
  (parse_failure_record_settled_unretried urlBad (fun _ => Except.ok "x")
    (by decide) ⟨"Failed to parse GitHub URL", rfl⟩).2.2.2.1

/-- Counterexample to C5 as stated ("that record is never retried"): in
the tabbed view the parse-failure record's panel shows a retryable error,
and the user's retry click forces a load attempt against the record. -/
theorem parse_failure_record_retried_by_retry_button :
    Event.emitFileError 0 "Failed to parse GitHub URL" true ∈ (render (widget0 attrC5) env0).2
    ∧ Event.fetchFile urlBad ∈ (retryClickTab (render (widget0 attrC5) env0).1 0 env0).2 := by
  decide

/-- Counterexample to C8 as stated: after rendering three files, activating
tab 2 and reconfiguring to two files, the immediate tabbed structural
view of the reconfiguration pass is built from the unclamped active index
2, which is not within the bounds of the new two-file list (the clamp to
0 happens only after the synchronous prefix of the pass). -/
theorem structural_view_uses_unclamped_index :
    stThreeTab2.tabState.activeTabIndex = 2
    ∧ (fileChanged stThreeTab2 attr2 env0).1.files.length = 2
    ∧ (fileChanged stThreeTab2 attr2 env0).2.head? = some (Event.emitTabbedSkeleton 2 2)
    ∧ ¬ (2 < 2) := by
  decide

end GithubCode
